import Mathlib

/-!
Shallow embedding of `apiScript/ws_monitor.py` (class `RealtimeClipboardMonitor`),
a WebSocket clipboard monitor client.

Modelling conventions:
- A parsed JSON value (the result of `json.loads`) is the inductive `Json`;
  Python dicts become association lists in insertion order, JSON numbers are
  modelled as integers (the only numbers the program ever produces or the
  claims mention).
- Every `print(...)` statement of the script becomes one constructor of
  `OutLine`, holding exactly the dynamic parts interpolated into the f-string.
- A Python exception escaping a piece of code is modelled explicitly: the
  handler returns the list of lines printed before the exception together with
  `Option String` (`some e` = an exception with message `e` escaped).
- The wall-clock timestamp `time.strftime` reads is impure; it is passed in
  as the parameter `ts`.
-/

set_option autoImplicit false
set_option maxRecDepth 8192

namespace WsMonitor

/-- A parsed JSON value, as produced by `json.loads`. -/
inductive Json where
  | null : Json
  | bool : Bool → Json
  | num : Int → Json
  | str : String → Json
  | arr : List Json → Json
  | obj : List (String × Json) → Json
  deriving Repr

/-- Python `dict.get(k)` on a dict parsed from JSON: first binding of the key
(keys are unique after parsing, so first = only). -/
def jLookup (fs : List (String × Json)) (k : String) : Option Json :=
  match fs with
  | [] => none
  | (k', v) :: rest => if k' = k then some v else jLookup rest k

/-- Python truthiness of a JSON value (`if x:`). -/
def truthy : Json → Bool
  | .null => false
  | .bool b => b
  | .num n => n != 0
  | .str s => !s.isEmpty
  | .arr xs => !xs.isEmpty
  | .obj fs => !fs.isEmpty

/-- Python `len(x)`: defined for str, list and dict; `TypeError` otherwise. -/
def pyLen : Json → Except String Nat
  | .str s => .ok s.length
  | .arr xs => .ok xs.length
  | .obj fs => .ok fs.length
  | _ => .error "TypeError: object has no len()"

/-- Python `v[:n].replace(a, b)` where `a`, `b` are single characters:
defined when `v` is a str (slicing is by code points, as in Python); any other
value raises (`TypeError` on slicing, or `AttributeError` on `.replace`). -/
def sliceReplace (v : Json) (n : Nat) (a b : Char) : Except String String :=
  match v with
  | .str s => .ok (String.mk ((s.data.take n).map fun c => if c = a then b else c))
  | _ => .error "TypeError: value does not support slicing and replace"

/-- The pure result of `s[:n].replace(a, b)` on an actual string. -/
def truncMap (s : String) (n : Nat) (a b : Char) : String :=
  String.mk ((s.data.take n).map fun c => if c = a then b else c)

/-- One line printed by the monitor. Each constructor is one `print(...)`
statement of `ws_monitor.py`, holding the dynamic parts of its f-string. -/
inductive OutLine where
  /-- `[ts] ❌ 错误: {e}` — sync payload carried an `error` key. -/
  | errLine (ts : String) (e : Json)
  /-- `[ts] ✅ {m}` — sync payload carried a `message` key. -/
  | statusLine (ts : String) (m : Json)
  /-- `[ts] 🆕 新内容: {ty} - {preview}...` — new clipboard item push. -/
  | newContent (ts : String) (ty : Json) (preview : String)
  /-- `[ts] 🗑️ 内容已删除: {id}` — delete notification. -/
  | deleted (ts : String) (id : Json)
  /-- `[ts] 📋 当前内容总数: {count} 条` — all_content total. -/
  | countLine (ts : String) (count : Json)
  /-- `最新的3条内容:` header before the item previews. -/
  | latestHeader
  /-- `  {k}. [{created}] {ty}: {preview}...` — one all_content item. -/
  | itemLine (k : Nat) (created : String) (ty : Option Json) (preview : String)
  /-- `[ts] 📊 连接统计: {n} 个活跃连接` — connection statistics. -/
  | connStats (ts : String) (n : Json)
  /-- `[ts] 📨 收到消息: {tag}` — unrecognized message type. -/
  | unrecognized (ts : String) (tag : Json)
  /-- `📤 发送: {s}` — a frame was sent. -/
  | sentLine (s : String)
  /-- `❌ 发送失败: {e}` — send raised. -/
  | sendFail
  /-- `❌ 解析消息失败: {e}` — a frame failed JSON parsing. -/
  | parseFail
  /-- `🔌 连接已关闭` — transport signalled connection closed. -/
  | closedLine
  /-- `❌ 监听出错: {e}` — unclassified exception in the listen loop. -/
  | listenErr
  /-- `🔌 WebSocket 连接已断开` — disconnect. -/
  | disconnectedLine

/-- Classification helper: is this an error line? -/
def OutLine.isError : OutLine → Bool
  | .errLine _ _ => true
  | _ => false

/-- Classification helper: is this a status line? -/
def OutLine.isStatus : OutLine → Bool
  | .statusLine _ _ => true
  | _ => false

/-- Classification helper: is this a new-clipboard-item preview line? -/
def OutLine.isNewItem : OutLine → Bool
  | .newContent _ _ _ => true
  | _ => false

/-- Classification helper: is this an all_content item preview line? -/
def OutLine.isItemLine : OutLine → Bool
  | .itemLine _ _ _ _ => true
  | _ => false

/-- Body of the `for i, item in enumerate(items[:3])` loop of the
`all_content` branch: `created_time = item.get('createdAt', '')[:19].replace('T', ' ')`,
`content_preview = item.get('content', '')[:80].replace('\n', ' ')`, then one
print. A non-dict item raises (`AttributeError` on `.get`). -/
def renderItem (i : Nat) (j : Json) : Except String OutLine :=
  match j with
  | .obj item => do
      let created ← sliceReplace ((jLookup item "createdAt").getD (.str "")) 19 'T' ' '
      let preview ← sliceReplace ((jLookup item "content").getD (.str "")) 80 '\n' ' '
      .ok (.itemLine (i + 1) created (jLookup item "type") preview)
  | _ => .error "AttributeError: item has no attribute get"

/-- The enumerate loop itself. Lines printed before an exception are kept;
the exception aborts the rest of the loop. -/
def renderItems (i : Nat) : List Json → List OutLine × Option String
  | [] => ([], none)
  | j :: rest =>
      match renderItem i j with
      | .ok l =>
          let (ls, e) := renderItems (i + 1) rest
          (l :: ls, e)
      | .error e => ([], some e)

/-- `handle_message` on a message that parsed to a JSON dict `data`
(ws_monitor.py lines 84–123). Returns the printed lines and, in `Option`,
an exception that escaped the handler. -/
def handleObj (ts : String) (data : List (String × Json)) : List OutLine × Option String :=
  let message_type := (jLookup data "type").getD (.str "unknown")
  match message_type with
  | .str t =>
      if t = "sync" then
        match jLookup data "data" with
        | some (.obj p) =>
            match jLookup p "error" with
            | some e => ([.errLine ts e], none)
            | none =>
                match jLookup p "message" with
                | some m => ([.statusLine ts m], none)
                | none =>
                    match jLookup p "type" with
                    | some tv =>
                        if truthy tv then
                          match sliceReplace ((jLookup p "content").getD (.str "")) 100 '\n' ' ' with
                          | .ok preview => ([.newContent ts tv preview], none)
                          | .error e => ([], some e)
                        else ([], none)
                    | none => ([], none)
        | _ => ([], none)
      else if t = "delete" then
        ([.deleted ts ((jLookup data "id").getD (.str "unknown"))], none)
      else if t = "all_content" then
        let items := (jLookup data "data").getD (.arr [])
        match pyLen items with
        | .error e => ([], some e)
        | .ok n =>
            let count := (jLookup data "count").getD (.num (Int.ofNat n))
            if truthy items then
              match items with
              | .arr xs =>
                  let (ls, e) := renderItems 0 (xs.take 3)
                  (.countLine ts count :: .latestHeader :: ls, e)
              | _ => ([.countLine ts count, .latestHeader], some "TypeError: value does not support slicing")
            else ([.countLine ts count], none)
      else if t = "connection_stats" then
        match (jLookup data "data").getD (.obj []) with
        | .obj stats => ([.connStats ts ((jLookup stats "activeConnections").getD (.num 0))], none)
        | _ => ([], some "AttributeError: value has no attribute get")
      else ([.unrecognized ts (.str t)], none)
  | other => ([.unrecognized ts other], none)

/-- `handle_message` on any parsed JSON value. A non-dict top-level value
raises at `data.get('type', 'unknown')`. -/
def handle_message (ts : String) (j : Json) : List OutLine × Option String :=
  match j with
  | .obj data => handleObj ts data
  | _ => ([], some "AttributeError: value has no attribute get")

/-- Decimal digits of a positive Nat (structural recursion on explicit fuel,
so the kernel can evaluate it). -/
def natDigitsAux : Nat → Nat → List Char
  | 0, _ => []
  | fuel + 1, n =>
      if n = 0 then []
      else natDigitsAux fuel (n / 10) ++ [Char.ofNat (48 + n % 10)]

/-- Decimal rendering of a Nat, as Python `str` renders a nonnegative int. -/
def natRepr (n : Nat) : String :=
  if n = 0 then "0" else String.mk (natDigitsAux (n + 1) n)

/-- Python `str(i)` for an int. -/
def intRepr : Int → String
  | .ofNat n => natRepr n
  | .negSucc n => "-" ++ natRepr (n + 1)

/-- One hex digit, lowercase, as CPython renders `\uXXXX` escapes. -/
def hexDigit (n : Nat) : Char :=
  if n < 10 then Char.ofNat (48 + n) else Char.ofNat (87 + n)

/-- How `json.dumps(..., ensure_ascii=False)` renders one character inside a
string literal: `"` and backslash are escaped, control characters below 0x20
use the short escapes or `\u00XX`, everything else — including every
non-ASCII character — is emitted untouched. -/
def escChars (c : Char) : List Char :=
  if c = '"' then ['\\', '"']
  else if c = '\\' then ['\\', '\\']
  else if c = '\n' then ['\\', 'n']
  else if c = '\t' then ['\\', 't']
  else if c = '\r' then ['\\', 'r']
  else if c = Char.ofNat 8 then ['\\', 'b']
  else if c = Char.ofNat 12 then ['\\', 'f']
  else if c.toNat < 32 then
    ['\\', 'u', '0', '0', hexDigit (c.toNat / 16), hexDigit (c.toNat % 16)]
  else [c]

/-- A JSON string literal as `json.dumps(..., ensure_ascii=False)` emits it. -/
def dumpStr (s : String) : String :=
  "\"" ++ String.mk (s.data.flatMap escChars) ++ "\""

mutual

/-- `json.dumps(v, ensure_ascii=False)` with CPython's default separators
(", " between members, ": " after a key). -/
def dumps : Json → String
  | .null => "null"
  | .bool true => "true"
  | .bool false => "false"
  | .num n => intRepr n
  | .str s => dumpStr s
  | .arr xs => "[" ++ dumpsList xs ++ "]"
  | .obj fs => "\x7b" ++ dumpsFields fs ++ "\x7d"

/-- Array members, ", "-separated. -/
def dumpsList : List Json → String
  | [] => ""
  | [x] => dumps x
  | x :: y :: rest => dumps x ++ ", " ++ dumpsList (y :: rest)

/-- Object members, `"key": value`, ", "-separated. -/
def dumpsFields : List (String × Json) → String
  | [] => ""
  | [(k, v)] => dumpStr k ++ ": " ++ dumps v
  | (k, v) :: f :: rest => dumpStr k ++ ": " ++ dumps v ++ ", " ++ dumpsFields (f :: rest)

end

/-- State of the WebSocket handle held in `self.websocket`: a live channel,
one whose send side raises, or one that has been closed. -/
inductive ChanState where
  | healthy : ChanState
  | broken : ChanState
  | closedChan : ChanState

/-- The monitor's mutable session state: `self.websocket` and `self.running`. -/
structure MonState where
  websocket : Option ChanState
  running : Bool

/-- `send_message` (ws_monitor.py lines 53–63): with no handle it returns
silently; otherwise it serializes with `json.dumps(..., ensure_ascii=False)`,
sends, and prints the sent frame; if the send raises (broken or closed
channel) the failure is printed and swallowed. Returns the frames that
reached the wire and the printed lines. -/
def send_message (st : MonState) (message : Json) : List String × List OutLine :=
  match st.websocket with
  | none => ([], [])
  | some .healthy =>
      let message_str := dumps message
      ([message_str], [.sentLine message_str])
  | some _ => ([], [.sendFail])

/-- `request_current_content` (lines 125–130): send
`{"type": "get_all_content", "data": {"limit": 10}}`. -/
def request_current_content (st : MonState) : List String × List OutLine :=
  send_message st (.obj [("type", .str "get_all_content"),
                         ("data", .obj [("limit", .num 10)])])

/-- `disconnect` (lines 46–51): if a handle exists, clear `running`, close
the channel (`websocket.close()` is itself idempotent and does not reset
`self.websocket`), print the notice; otherwise do nothing. -/
def disconnect (st : MonState) : MonState × List OutLine :=
  match st.websocket with
  | none => (st, [])
  | some _ => ({ websocket := some .closedChan, running := false }, [.disconnectedLine])

/-- How the frame stream presented to `async for` ends: the transport raised
`ConnectionClosed`, raised some other exception, or the iterator was
exhausted without an exception. -/
inductive TransportEnd where
  | closed : TransportEnd
  | transErr : TransportEnd
  | finished : TransportEnd

/-- The `async for` loop of `listen_messages` (lines 70–82) over an explicit
list of frames, each already run through `json.loads` (`none` = the frame
failed to parse). A parse failure prints one line and continues; an exception
escaping `handle_message` is caught by the outer `except Exception`, which
prints and clears `running`; reaching the end of the stream dispatches on how
the transport ended. -/
def listenLoop (ts : String) (ending : TransportEnd) (st : MonState) :
    List (Option Json) → MonState × List OutLine
  | [] =>
      match ending with
      | .closed => ({ st with running := false }, [.closedLine])
      | .transErr => ({ st with running := false }, [.listenErr])
      | .finished => (st, [])
  | f :: rest =>
      match f with
      | none =>
          let (st', out) := listenLoop ts ending st rest
          (st', .parseFail :: out)
      | some j =>
          match handle_message ts j with
          | (out, none) =>
              let (st', out') := listenLoop ts ending st rest
              (st', out ++ out')
          | (out, some _) => ({ st with running := false }, out ++ [.listenErr])

/-- `listen_messages` (lines 65–82): returns immediately with no output when
no handle exists, otherwise runs the receive loop. -/
def listen_messages (ts : String) (frames : List (Option Json))
    (ending : TransportEnd) (st : MonState) : MonState × List OutLine :=
  match st.websocket with
  | none => (st, [])
  | some _ => listenLoop ts ending st frames

/-- A frame whose processing does not abort the listen loop: it either fails
to parse (logged, loop continues) or is handled without an exception. -/
def frameOk (ts : String) (f : Option Json) : Bool :=
  match f with
  | none => true
  | some j => (handle_message ts j).2.isNone

/-- The lines the loop prints for a list of frames none of which aborts it. -/
def frameOutputs (ts : String) : List (Option Json) → List OutLine
  | [] => []
  | none :: rest => .parseFail :: frameOutputs ts rest
  | some j :: rest => (handle_message ts j).1 ++ frameOutputs ts rest

/-- A dict field that is either absent or a JSON string — the shapes on which
`item.get(k, '')[:n]` cannot raise. -/
def strOrAbsent (fs : List (String × Json)) (k : String) : Bool :=
  match jLookup fs k with
  | none => true
  | some (.str _) => true
  | some _ => false

/-- An `all_content` item the loop body renders without raising: a dict whose
`createdAt` and `content` are strings when present. -/
def goodItem : Json → Bool
  | .obj fs => strOrAbsent fs "createdAt" && strOrAbsent fs "content"
  | _ => false

/-- The string `item.get(k, '')` yields on a good item. -/
def fieldStr (fs : List (String × Json)) (k : String) : String :=
  match jLookup fs k with
  | some (.str s) => s
  | _ => ""

/-- The preview line the `all_content` loop body prints for item number
`k + 1` with fields `fs`. -/
def lineFor (k : Nat) (fs : List (String × Json)) : OutLine :=
  .itemLine (k + 1) (truncMap (fieldStr fs "createdAt") 19 'T' ' ')
    (jLookup fs "type") (truncMap (fieldStr fs "content") 80 '\n' ' ')

/-- A printed line is the preview the loop body produces for the item `j`. -/
def lineMatches (l : OutLine) (j : Json) : Prop :=
  ∃ k fs, j = .obj fs ∧ l = lineFor k fs

/-- A character `json.dumps(..., ensure_ascii=False)` copies to the output
verbatim: not `"`, not a backslash, not a control character. Every non-ASCII
character satisfies this. -/
def plainJsonChar (c : Char) : Bool :=
  c ≠ '"' && c ≠ '\\' && 32 ≤ c.toNat

/-!
Theorems: the claims about the monitor, settled against the embedding above.
Helper lemmas come first, then one theorem per claim with its witness.
-/

/-- C10: an inbound JSON object with no `type` field dispatches to the
fallback branch with the substitute tag `unknown` and prints an
unrecognized-message notice containing it. -/
theorem missing_type_unrecognized (ts : String) (d : List (String × Json))
    (h : jLookup d "type" = none) :
    handle_message ts (.obj d) = ([.unrecognized ts (.str "unknown")], none) := by
  simp [handle_message, handleObj, h]

/-- Witness for C10 at the empty object. -/
theorem missing_type_unrecognized_witness :
    handle_message "00:00:00" (.obj []) = ([.unrecognized "00:00:00" (.str "unknown")], none) :=
  missing_type_unrecognized "00:00:00" [] rfl

/-- C1: on a `sync` message with a dict payload, an `error` key prints exactly
one error line (no status line, no item preview); with no `error` key, a
`message` key prints exactly one status line; and the concrete inbound
message with payload error `boom` produces the error line carrying `boom`. -/
theorem sync_dispatch_error_status (ts : String) (d p : List (String × Json))
    (hty : jLookup d "type" = some (.str "sync"))
    (hd : jLookup d "data" = some (.obj p)) :
    (∀ e, jLookup p "error" = some e →
        handle_message ts (.obj d) = ([.errLine ts e], none) ∧
        (OutLine.errLine ts e).isError = true ∧
        (OutLine.errLine ts e).isStatus = false ∧
        (OutLine.errLine ts e).isNewItem = false) ∧
    (∀ m, jLookup p "error" = none → jLookup p "message" = some m →
        handle_message ts (.obj d) = ([.statusLine ts m], none) ∧
        (OutLine.statusLine ts m).isStatus = true ∧
        (OutLine.statusLine ts m).isError = false) ∧
    handle_message ts (.obj [("type", Json.str "sync"), ("data", Json.obj [("error", Json.str "boom")])])
      = ([.errLine ts (.str "boom")], none) := by
  refine ⟨fun e he => ⟨?_, rfl, rfl, rfl⟩, fun m he hm => ⟨?_, rfl, rfl⟩, rfl⟩
  · simp [handle_message, handleObj, hty, hd, he]
  · simp [handle_message, handleObj, hty, hd, he, hm]

/-- Witness for C1: the `boom` example, hypotheses discharged concretely. -/
theorem sync_dispatch_error_status_witness :
    handle_message "00:00:01"
        (.obj [("type", Json.str "sync"), ("data", Json.obj [("error", Json.str "boom")])])
      = ([.errLine "00:00:01" (.str "boom")], none) :=
  (sync_dispatch_error_status "00:00:01"
    [("type", Json.str "sync"), ("data", Json.obj [("error", Json.str "boom")])]
    [("error", Json.str "boom")] rfl rfl).2.2

/-- C2: a `sync` payload with no `error` and no `message` key, a truthy
`type` and a string `content` prints one new-item preview: the first 100
characters of `content` with newlines mapped to spaces, alongside the item's
`type`; the preview never exceeds 100 characters and contains no newline. -/
theorem sync_new_item_preview (ts : String) (p : List (String × Json)) (tv : Json) (s : String)
    (he : jLookup p "error" = none) (hm : jLookup p "message" = none)
    (ht : jLookup p "type" = some tv) (htr : truthy tv = true)
    (hc : jLookup p "content" = some (.str s)) :
    handle_message ts (.obj [("type", Json.str "sync"), ("data", Json.obj p)])
      = ([.newContent ts tv (truncMap s 100 '\n' ' ')], none) ∧
    (truncMap s 100 '\n' ' ').length = min 100 s.length ∧
    ∀ c ∈ (truncMap s 100 '\n' ' ').data, c ≠ '\n' := by
  refine ⟨?_, ?_, ?_⟩
  · show handleObj ts [("type", Json.str "sync"), ("data", Json.obj p)] = _
    rw [handleObj]
    simp only [jLookup, String.reduceEq, reduceIte, Option.getD_some]
    rw [he, hm, ht, hc]
    simp only [Option.getD_some, htr, sliceReplace, if_true, reduceIte]
    rfl
  · show ((s.data.take 100).map (fun c => if c = '\n' then ' ' else c)).length = min 100 s.length
    rw [List.length_map, List.length_take]
    rfl
  · intro c hc'
    have h2 : c ∈ (s.data.take 100).map (fun x => if x = '\n' then ' ' else x) := hc'
    rw [List.mem_map] at h2
    obtain ⟨a, _, ha⟩ := h2
    by_cases h : a = '\n'
    · rw [if_pos h] at ha
      subst ha
      decide
    · rw [if_neg h] at ha
      subst ha
      exact h

/-- Witness for C2: content of 150 `A`s yields a preview of exactly 100 `A`s. -/
theorem sync_new_item_preview_witness :
    handle_message "00:00:02"
        (.obj [("type", Json.str "sync"),
               ("data", Json.obj [("type", Json.str "text"),
                                  ("content", Json.str (String.mk (List.replicate 150 'A')))])])
      = ([.newContent "00:00:02" (.str "text") (String.mk (List.replicate 100 'A'))], none) ∧
    (String.mk (List.replicate 100 'A')).length = 100 := by
  have h := sync_new_item_preview "00:00:02"
    [("type", Json.str "text"), ("content", Json.str (String.mk (List.replicate 150 'A')))]
    (.str "text") (String.mk (List.replicate 150 'A')) rfl rfl rfl rfl rfl
  refine ⟨?_, rfl⟩
  have htr : truncMap (String.mk (List.replicate 150 'A')) 100 '\n' ' '
      = String.mk (List.replicate 100 'A') := by
    simp [truncMap, List.take_replicate, List.map_replicate]
  rw [← htr]
  exact h.1

/-- C6 counterexample: a `sync` message whose dict payload has no `error`,
no `message` and no `type` key produces no output at all — the handler stays
silent instead of doing some best-effort rendering. -/
theorem sync_silent_payload_cex :
    handle_message "12:00:00" (.obj [("type", Json.str "sync"), ("data", Json.obj [])])
      = ([], none) := rfl

/-- C6 amended: a missing expected field degrades to a default or empty
value without raising in the `delete`, `all_content`, `connection_stats` and
fallback branches, but a `sync` message whose payload lacks `error`,
`message` and a truthy `type` (or whose `data` is not a dict) prints
nothing. -/
theorem handle_missing_fields_degrade (ts : String) :
    handle_message ts (.obj [("type", .str "delete")]) = ([.deleted ts (.str "unknown")], none) ∧
    handle_message ts (.obj [("type", .str "all_content")]) = ([.countLine ts (.num 0)], none) ∧
    handle_message ts (.obj [("type", .str "connection_stats")]) = ([.connStats ts (.num 0)], none) ∧
    handle_message ts (.obj []) = ([.unrecognized ts (.str "unknown")], none) ∧
    handle_message ts (.obj [("type", .str "sync")]) = ([], none) ∧
    handle_message ts (.obj [("type", .str "sync"), ("data", .obj [])]) = ([], none) :=
  ⟨rfl, rfl, rfl, rfl, rfl, rfl⟩

/-- C7 counterexample: with no open connection, `send_message` sends nothing
and prints nothing — the failure is not logged, contrary to the claim. -/
theorem send_no_channel_silent_cex :
    send_message ⟨none, false⟩ (.obj [("type", Json.str "ping")]) = ([], []) := rfl

/-- C7 amended: `send_message` puts a frame on the wire exactly when a
healthy channel exists; a broken or closed channel makes the send raise,
which is logged and swallowed; an absent channel makes it return silently,
with no log line; no case propagates an error. -/
theorem send_message_failure_modes (st : MonState) (message : Json) :
    (st.websocket = none → send_message st message = ([], [])) ∧
    (st.websocket = some .broken → send_message st message = ([], [.sendFail])) ∧
    (st.websocket = some .closedChan → send_message st message = ([], [.sendFail])) ∧
    (st.websocket = some .healthy →
      send_message st message = ([dumps message], [.sentLine (dumps message)])) := by
  refine ⟨fun h => ?_, fun h => ?_, fun h => ?_, fun h => ?_⟩ <;> simp [send_message, h]

/-- Witness for C7 amended: a healthy channel sends and logs; an absent one
does neither. -/
theorem send_message_failure_modes_witness :
    send_message ⟨some .healthy, true⟩ (.str "x")
      = ([dumps (.str "x")], [.sentLine (dumps (.str "x"))]) ∧
    send_message ⟨some .broken, true⟩ (.str "x") = ([], [.sendFail]) :=
  ⟨(send_message_failure_modes ⟨some .healthy, true⟩ (.str "x")).2.2.2 rfl,
   (send_message_failure_modes ⟨some .broken, true⟩ (.str "x")).2.1 rfl⟩

/-- C9: `disconnect` is idempotent on the session state — a second call
leaves the state a single call produced unchanged; it is a no-op when no
connection was ever established, and on an open connection it clears the
running flag and closes the channel. -/
theorem disconnect_idempotent (st : MonState) :
    (disconnect (disconnect st).1).1 = (disconnect st).1 ∧
    (st.websocket = none → disconnect st = (st, [])) ∧
    (∀ c, st.websocket = some c →
      (disconnect st).1.running = false ∧ (disconnect st).1.websocket = some .closedChan) := by
  obtain ⟨ws, r⟩ := st
  cases ws <;> simp [disconnect]

/-- Witness for C9 at a live connected session. -/
theorem disconnect_idempotent_witness :
    (disconnect (disconnect ⟨some ChanState.healthy, true⟩).1).1
      = (disconnect (⟨some ChanState.healthy, true⟩ : MonState)).1 ∧
    (disconnect (⟨some ChanState.healthy, true⟩ : MonState)).1.running = false :=
  ⟨(disconnect_idempotent ⟨some .healthy, true⟩).1,
   ((disconnect_idempotent ⟨some .healthy, true⟩).2.2 .healthy rfl).1⟩

/-- A plain character is copied verbatim by the serializer. -/
theorem escChars_plain (c : Char) (h : plainJsonChar c = true) : escChars c = [c] := by
  obtain ⟨⟨h1, h2⟩, h3⟩ : (c ≠ '"' ∧ c ≠ '\\') ∧ 32 ≤ c.toNat := by
    simpa [plainJsonChar] using h
  rw [escChars]
  rw [if_neg h1, if_neg h2]
  rw [if_neg (by rintro rfl; exact absurd h3 (by decide))]
  rw [if_neg (by rintro rfl; exact absurd h3 (by decide))]
  rw [if_neg (by rintro rfl; exact absurd h3 (by decide))]
  rw [if_neg (by rintro rfl; exact absurd h3 (by decide))]
  rw [if_neg (by rintro rfl; exact absurd h3 (by decide))]
  rw [if_neg (by omega)]

/-- A string of plain characters passes through the serializer unchanged. -/
theorem flatMap_escChars_plain (l : List Char) (h : ∀ c ∈ l, plainJsonChar c = true) :
    l.flatMap escChars = l := by
  induction l with
  | nil => rfl
  | cons c cs ih =>
      rw [List.flatMap_cons, escChars_plain c (h c (by simp)),
        ih (fun x hx => h x (by simp [hx]))]
      rfl

/-- C8: with a live channel, `request_current_content` puts exactly the JSON
serialization of `{"type": "get_all_content", "data": {"limit": 10}}` on the
wire, and the serializer emits every string made of plain characters —
non-ASCII included — verbatim, un-escaped, between quotes. -/
theorem request_content_wire_format (st : MonState) (h : st.websocket = some .healthy) :
    (request_current_content st).1
      = ["\x7b\"type\": \"get_all_content\", \"data\": \x7b\"limit\": 10\x7d\x7d"] ∧
    (∀ s : String, (∀ c ∈ s.data, plainJsonChar c = true) →
      dumps (.str s) = "\"" ++ s ++ "\"") ∧
    dumps (.str "剪切板") = "\"剪切板\"" := by
  refine ⟨?_, ?_, rfl⟩
  · simp only [request_current_content, send_message, h]
    rfl
  · intro s hs
    show "\"" ++ String.mk (s.data.flatMap escChars) ++ "\"" = "\"" ++ s ++ "\""
    rw [flatMap_escChars_plain s.data hs]

/-- Witness for C8 at a live session and the string `你好`. -/
theorem request_content_wire_format_witness :
    (request_current_content ⟨some ChanState.healthy, true⟩).1
      = ["\x7b\"type\": \"get_all_content\", \"data\": \x7b\"limit\": 10\x7d\x7d"] ∧
    dumps (.str "你好") = "\"你好\"" :=
  ⟨(request_content_wire_format ⟨some .healthy, true⟩ rfl).1,
   (request_content_wire_format ⟨some .healthy, true⟩ rfl).2.1 "你好" (by decide)⟩

/-- A good field is absent or a string. -/
theorem strOrAbsent_spec (fs : List (String × Json)) (k : String)
    (h : strOrAbsent fs k = true) :
    jLookup fs k = none ∨ ∃ s, jLookup fs k = some (.str s) := by
  unfold strOrAbsent at h
  cases h' : jLookup fs k with
  | none => exact .inl rfl
  | some v =>
      cases v with
      | str s => exact .inr ⟨s, rfl⟩
      | null => rw [h'] at h; simp at h
      | bool b => rw [h'] at h; simp at h
      | num n => rw [h'] at h; simp at h
      | arr xs => rw [h'] at h; simp at h
      | obj gs => rw [h'] at h; simp at h

/-- The loop body renders a good item without raising, producing its line. -/
theorem renderItem_good (i : Nat) (fs : List (String × Json))
    (h : goodItem (.obj fs) = true) : renderItem i (.obj fs) = .ok (lineFor i fs) := by
  have hsplit : strOrAbsent fs "createdAt" = true ∧ strOrAbsent fs "content" = true := by
    simpa [goodItem] using h
  rcases strOrAbsent_spec fs "createdAt" hsplit.1 with hca | ⟨s1, hca⟩ <;>
    rcases strOrAbsent_spec fs "content" hsplit.2 with hco | ⟨s2, hco⟩ <;>
      (simp [renderItem, sliceReplace, lineFor, fieldStr, truncMap, hca, hco]; rfl)

/-- The enumerate loop over good items succeeds and produces their lines. -/
theorem renderItems_good (l : List Json) (h : ∀ j ∈ l, goodItem j = true) (i : Nat) :
    ∃ ls, renderItems i l = (ls, none) ∧ List.Forall₂ lineMatches ls l := by
  induction l generalizing i with
  | nil => exact ⟨[], rfl, .nil⟩
  | cons j rest ih =>
      have hj := h j (by simp)
      obtain ⟨fs, rfl⟩ : ∃ fs, j = .obj fs := by
        cases j <;> simp [goodItem] at hj ⊢
      obtain ⟨ls, hls, hmatch⟩ := ih (fun x hx => h x (by simp [hx])) (i + 1)
      refine ⟨lineFor i fs :: ls, ?_, .cons ⟨i, fs, rfl, rfl⟩ hmatch⟩
      simp [renderItems, renderItem_good i fs hj, hls]

/-- A truncated preview never exceeds the truncation bound. -/
theorem truncMap_length_le (s : String) (n : Nat) (a b : Char) :
    (truncMap s n a b).length ≤ n := by
  show ((s.data.take n).map (fun c => if c = a then b else c)).length ≤ n
  rw [List.length_map, List.length_take]
  omega

/-- Each line of a `Forall₂` left list matches some right element. -/
theorem forall₂_mem_left {α β : Type} {R : α → β → Prop} {xs : List α} {ys : List β}
    (h : List.Forall₂ R xs ys) : ∀ x ∈ xs, ∃ y, R x y := by
  induction h with
  | nil => intro x hx; cases hx
  | cons hR _ ih =>
      intro x hx
      rcases List.mem_cons.mp hx with rfl | hx'
      · exact ⟨_, hR⟩
      · exact ih x hx'

/-- C3: an `all_content` message with an array payload of well-shaped items
prints the `count`, then — only when the array is nonempty — a header and one
preview line per item for exactly the first `min 3 n` items, each line
carrying at most 19 characters of `createdAt` and at most 80 of `content`;
the concrete empty message prints the count `0` and no item lines. -/
theorem all_content_first_three (ts : String) (xs : List Json) (c : Json)
    (hg : ∀ j ∈ xs.take 3, goodItem j = true) :
    (∃ ls, handle_message ts (.obj [("type", Json.str "all_content"),
                                    ("data", Json.arr xs), ("count", c)])
        = (.countLine ts c :: (if xs.isEmpty then [] else .latestHeader :: ls), none) ∧
      ls.length = min 3 xs.length ∧
      List.Forall₂ lineMatches ls (xs.take 3) ∧
      ∀ l ∈ ls, ∀ k created ty pv, l = .itemLine k created ty pv →
        created.length ≤ 19 ∧ pv.length ≤ 80) ∧
    handle_message ts (.obj [("type", Json.str "all_content"),
                             ("data", Json.arr []), ("count", Json.num 0)])
      = ([.countLine ts (.num 0)], none) := by
  obtain ⟨ls, hls, hmatch⟩ := renderItems_good (xs.take 3) hg 0
  refine ⟨⟨ls, ?_, ?_, hmatch, ?_⟩, rfl⟩
  · rcases xs with _ | ⟨x, xs'⟩
    · obtain rfl : ls = [] := by
        simpa [renderItems] using hls.symm
      rfl
    · simp only [List.take_succ_cons] at hls
      simp only [handle_message, handleObj, jLookup, String.reduceEq, reduceIte,
        Option.getD_some, pyLen, truthy]
      simp [hls]
  · rw [hmatch.length_eq, List.length_take]
  · intro l hl k created ty pv heq
    obtain ⟨j, hR⟩ := forall₂_mem_left hmatch l hl
    obtain ⟨k', fs, rfl, hline⟩ := hR
    rw [heq] at hline
    rw [lineFor] at hline
    cases hline
    exact ⟨truncMap_length_le _ _ _ _, truncMap_length_le _ _ _ _⟩

/-- Witness for C3: the empty `all_content` message. -/
theorem all_content_first_three_witness :
    handle_message "00:00:03" (.obj [("type", Json.str "all_content"),
                                     ("data", Json.arr []), ("count", Json.num 0)])
      = ([.countLine "00:00:03" (.num 0)], none) :=
  (all_content_first_three "00:00:03" [] (.num 0) (by simp)).2

/-- Processing a block of non-aborting frames prefixes its output and leaves
the rest of the loop unchanged. -/
theorem listenLoop_append (ts : String) (ending : TransportEnd) (st : MonState)
    (fs1 rest : List (Option Json)) (h : ∀ f ∈ fs1, frameOk ts f = true) :
    listenLoop ts ending st (fs1 ++ rest)
      = ((listenLoop ts ending st rest).1,
         frameOutputs ts fs1 ++ (listenLoop ts ending st rest).2) := by
  induction fs1 with
  | nil => simp [frameOutputs]
  | cons f fs ih =>
      have hf := h f (by simp)
      have hrest : ∀ g ∈ fs, frameOk ts g = true := fun g hg => h g (by simp [hg])
      cases f with
      | none => simp [listenLoop, frameOutputs, ih hrest]
      | some j =>
          rcases hj : handle_message ts j with ⟨out, e⟩
          cases e with
          | none => simp [listenLoop, frameOutputs, hj, ih hrest]
          | some err =>
              rw [frameOk, hj] at hf
              simp at hf

/-- C4: a frame that fails JSON parsing contributes exactly one parse-failure
log line; the loop does not terminate, and a subsequent valid frame is still
dispatched to the handler and its output printed. -/
theorem parse_failure_loop_continues (ts : String) (fs1 fs2 : List (Option Json)) (j : Json)
    (out : List OutLine) (ending : TransportEnd) (st : MonState) (c : ChanState)
    (hw : st.websocket = some c)
    (h1 : ∀ f ∈ fs1, frameOk ts f = true)
    (hj : handle_message ts j = (out, none)) :
    listen_messages ts (fs1 ++ none :: some j :: fs2) ending st
      = ((listen_messages ts fs2 ending st).1,
         frameOutputs ts fs1 ++ .parseFail :: out ++ (listen_messages ts fs2 ending st).2) := by
  simp only [listen_messages, hw]
  rw [listenLoop_append ts ending st fs1 _ h1]
  simp [listenLoop, hj]

/-- Witness for C4: a non-JSON frame followed by a valid frame; the valid
frame is still handled and printed. -/
theorem parse_failure_loop_continues_witness :
    listen_messages "00:00:04" [none, some (.obj [])] .finished ⟨some .healthy, true⟩
      = ((⟨some .healthy, true⟩ : MonState),
         [.parseFail, .unrecognized "00:00:04" (.str "unknown")]) :=
  parse_failure_loop_continues "00:00:04" [] [] (.obj [])
    [.unrecognized "00:00:04" (.str "unknown")] .finished ⟨some .healthy, true⟩ .healthy
    rfl (by simp) rfl

/-- C5: when the transport signals the connection was closed by the peer, the
listen loop prints the closed notice, clears the running flag and returns —
no exception propagates (the loop is a total function into a final state). -/
theorem connection_closed_clears_running (ts : String) (frames : List (Option Json))
    (st : MonState) (c : ChanState)
    (hw : st.websocket = some c) (h : ∀ f ∈ frames, frameOk ts f = true) :
    (listen_messages ts frames .closed st).1.running = false ∧
    (listen_messages ts frames .closed st).2 = frameOutputs ts frames ++ [.closedLine] := by
  have h2 := listenLoop_append ts .closed st frames [] h
  rw [List.append_nil] at h2
  simp only [listen_messages, hw]
  rw [h2]
  simp [listenLoop]

/-- Witness for C5 at a session that receives one valid frame then the
closed signal. -/
theorem connection_closed_clears_running_witness :
    (listen_messages "00:00:05" [some (.obj [])] .closed ⟨some .healthy, true⟩).1.running = false ∧
    (listen_messages "00:00:05" [some (.obj [])] .closed ⟨some .healthy, true⟩).2
      = [.unrecognized "00:00:05" (.str "unknown"), .closedLine] := by
  have h := connection_closed_clears_running "00:00:05" [some (.obj [])]
    ⟨some .healthy, true⟩ .healthy rfl (by simp [frameOk]; rfl)
  exact ⟨h.1, h.2⟩

end WsMonitor
